import Mathlib

/-!
ADS/AMS wire headers and the adstool front end

A shallow embedding of `AdsLib/AmsHeader.h`, `AdsLib/AmsRouter.h` and of the
routines `usage`, `RunRaw`, `RunVar`, `ParseCommand` (the log level
statements) and `main` of `AdsTool/main.cpp`.

Memory is modelled at byte level.  A packed struct (`#pragma pack (push, 1)`)
is a record of integer fields holding the values the host sees; its object
representation is the concatenation of the object representations of its
fields, each laid out in the byte order of the host.  The host byte order is
an explicit parameter of everything that touches memory.

The command functions of the tool are functions from their parsed arguments
and an environment (the device object, the conversions of the parameter
library, the state of the output stream) to a record of what they did: the
requests issued, the bytes written to `std::cout`, and how they ended.
-/

namespace Ads

/-! ## Bytes and integers in memory -/

/-- One octet of memory (`uint8_t`). -/
abbrev Byte := Fin 256

/-- Byte order of the machine the library runs on. -/
inductive Endian where
  | little
  | big
  deriving DecidableEq, Repr

/-- The `w` low-order octets of `v`, least significant first. -/
def leBytes : Nat → Nat → List Byte
  | 0, _ => []
  | w + 1, v => ⟨v % 256, Nat.mod_lt v (by decide)⟩ :: leBytes w (v / 256)

/-- The integer whose octets, least significant first, are `bs`. -/
def leValue : List Byte → Nat
  | [] => 0
  | b :: bs => b.val + 256 * leValue bs

/-- Object representation of a `w`-byte unsigned integer `v` on host `e`. -/
def objectBytes (e : Endian) (w v : Nat) : List Byte :=
  match e with
  | .little => leBytes w v
  | .big => (leBytes w v).reverse

/-- The unsigned integer a host `e` sees in the object representation `bs`. -/
def objectValue (e : Endian) (bs : List Byte) : Nat :=
  match e with
  | .little => leValue bs
  | .big => leValue bs.reverse

/-- Reversal of the `w` octets of `v` (`bswap_16`, `bswap_32`). -/
def byteSwap (w v : Nat) : Nat :=
  leValue (leBytes w v).reverse

/-- Modelled from the spec: `qToLittleEndian<T>` of `wrap_endian.h`, which is
not among the source files.  The spec requires every header to be
little-endian on the wire, so the helper returns the `w`-byte value whose
object representation on the host is `value` in little-endian order: the
identity on a little-endian host, a byte swap on a big-endian one. -/
def qToLittleEndian (e : Endian) (w value : Nat) : Nat :=
  match e with
  | .little => value % 256 ^ w
  | .big => byteSwap w value

/-- Modelled from the spec: `qFromLittleEndian<T>(const uint8_t*)` of
`wrap_endian.h`, which is not among the source files.  It reads
`sizeof(T) = w` octets at the pointer as a little-endian integer, on every
host. -/
def qFromLittleEndian (w : Nat) (p : List Byte) : Nat :=
  leValue (p.take w)

/-- Width of `uint16_t` in bytes. -/
def sizeofU16 : Nat := 2

/-- Width of `uint32_t` in bytes. -/
def sizeofU32 : Nat := 4

/-! ## `AmsTcpHeader` -/

/-- The packed struct `AmsTcpHeader`. -/
structure AmsTcpHeader where
  reserved : Nat
  leLength : Nat
  deriving DecidableEq, Repr

/-- The value of `sizeof(AmsTcpHeader)` under `pack(1)`. -/
def AmsTcpHeader.sizeof : Nat := sizeofU16 + sizeofU32

/-- The constructor `AmsTcpHeader(const uint32_t numBytes = 0)`. -/
def AmsTcpHeader.ofLength (e : Endian) (numBytes : Nat) : AmsTcpHeader :=
  { reserved := 0
    leLength := qToLittleEndian e sizeofU32 numBytes }

/-- Object representation of an `AmsTcpHeader`: what is put on the wire. -/
def AmsTcpHeader.image (e : Endian) (h : AmsTcpHeader) : List Byte :=
  objectBytes e sizeofU16 h.reserved ++ objectBytes e sizeofU32 h.leLength

/-- The constructor `AmsTcpHeader(const uint8_t *frame)`, which is
`memcpy(this, frame, sizeof(*this))`.
The source reads `sizeof(*this)` octets whatever the buffer holds; the model
is meant for frames of at least that many octets. -/
def AmsTcpHeader.ofFrame (e : Endian) (frame : List Byte) : AmsTcpHeader :=
  { reserved := objectValue e (frame.take sizeofU16)
    leLength := objectValue e ((frame.drop sizeofU16).take sizeofU32) }

/-- The method `AmsTcpHeader::length()`: `qFromLittleEndian<uint32_t>` applied to the
address of `leLength`. -/
def AmsTcpHeader.length (e : Endian) (h : AmsTcpHeader) : Nat :=
  qFromLittleEndian sizeofU32 (objectBytes e sizeofU32 h.leLength)

/-! ## Request bodies -/

/-- The packed struct `AoERequestHeader`. -/
structure AoERequestHeader where
  leGroup : Nat
  leOffset : Nat
  leLength : Nat
  deriving DecidableEq, Repr

/-- The constant `AoERequestHeader::SDO_UPLOAD`. -/
def AoERequestHeader.SDO_UPLOAD : Nat := 0xF302

/-- The constructor
`AoERequestHeader(uint32_t indexGroup, uint32_t indexOffset, uint32_t dataLength)`. -/
def AoERequestHeader.ofGroupOffset (e : Endian) (indexGroup indexOffset dataLength : Nat) :
    AoERequestHeader :=
  { leGroup := qToLittleEndian e sizeofU32 indexGroup
    leOffset := qToLittleEndian e sizeofU32 indexOffset
    leLength := qToLittleEndian e sizeofU32 dataLength }

/-- The constructor
`AoERequestHeader(uint16_t sdoIndex, uint8_t sdoSubIndex, uint32_t dataLength)`,
which delegates with `SDO_UPLOAD` and `((uint32_t)sdoIndex) << 16 | sdoSubIndex`. -/
def AoERequestHeader.ofSdo (e : Endian) (sdoIndex sdoSubIndex dataLength : Nat) :
    AoERequestHeader :=
  AoERequestHeader.ofGroupOffset e AoERequestHeader.SDO_UPLOAD
    (((sdoIndex <<< 16) % 2 ^ 32) ||| sdoSubIndex) dataLength

/-- Object representation of an `AoERequestHeader`. -/
def AoERequestHeader.image (e : Endian) (h : AoERequestHeader) : List Byte :=
  objectBytes e sizeofU32 h.leGroup ++ objectBytes e sizeofU32 h.leOffset
    ++ objectBytes e sizeofU32 h.leLength

/-- The packed struct `AdsAddDeviceNotificationRequest`; `reserved` is the
`std::array<uint8_t, 16>` member. -/
structure AdsAddDeviceNotificationRequest where
  leGroup : Nat
  leOffset : Nat
  leLength : Nat
  leMode : Nat
  leMaxDelay : Nat
  leCycleTime : Nat
  reserved : List Byte
  deriving DecidableEq, Repr

/-- The six-argument constructor of `AdsAddDeviceNotificationRequest`;
`reserved()` value-initialises the array, which zeroes its 16 elements. -/
def AdsAddDeviceNotificationRequest.ofAttrib (e : Endian)
    (group offset length mode maxDelay cycleTime : Nat) : AdsAddDeviceNotificationRequest :=
  { leGroup := qToLittleEndian e sizeofU32 group
    leOffset := qToLittleEndian e sizeofU32 offset
    leLength := qToLittleEndian e sizeofU32 length
    leMode := qToLittleEndian e sizeofU32 mode
    leMaxDelay := qToLittleEndian e sizeofU32 maxDelay
    leCycleTime := qToLittleEndian e sizeofU32 cycleTime
    reserved := List.replicate 16 0 }

/-- Object representation of an `AdsAddDeviceNotificationRequest`. -/
def AdsAddDeviceNotificationRequest.image (e : Endian)
    (h : AdsAddDeviceNotificationRequest) : List Byte :=
  objectBytes e sizeofU32 h.leGroup ++ objectBytes e sizeofU32 h.leOffset
    ++ objectBytes e sizeofU32 h.leLength ++ objectBytes e sizeofU32 h.leMode
    ++ objectBytes e sizeofU32 h.leMaxDelay ++ objectBytes e sizeofU32 h.leCycleTime
    ++ h.reserved

/-! ## `AmsAddr` and `AoEHeader` -/

/-- Modelled from the spec: `AmsNetId` of `AdsDef.h`, which is not part of the
source files; the spec describes it as a 6-byte identifier. -/
structure AmsNetId where
  b0 : Byte
  b1 : Byte
  b2 : Byte
  b3 : Byte
  b4 : Byte
  b5 : Byte
  deriving DecidableEq, Repr

/-- Modelled from the spec: `AmsAddr` of `AdsDef.h`, which is not part of the
source files; the spec describes it as the pair of an `AmsNetId` and a
16-bit port, 6 + 2 bytes inside the packed `AoEHeader`. -/
structure AmsAddr where
  netId : AmsNetId
  port : Nat
  deriving DecidableEq, Repr

/-- The six octets of an `AmsNetId`. -/
def AmsNetId.image (n : AmsNetId) : List Byte :=
  [n.b0, n.b1, n.b2, n.b3, n.b4, n.b5]

/-- The `AmsNetId` held in the first six octets of `bs`. -/
def AmsNetId.ofBytes (bs : List Byte) : AmsNetId :=
  { b0 := bs.getD 0 0, b1 := bs.getD 1 0, b2 := bs.getD 2 0
    b3 := bs.getD 3 0, b4 := bs.getD 4 0, b5 := bs.getD 5 0 }

/-- The value of `sizeof(AmsNetId)`. -/
def AmsNetId.sizeof : Nat := 6

/-- The value of `sizeof(AmsAddr)` inside the packed header. -/
def AmsAddr.sizeof : Nat := AmsNetId.sizeof + sizeofU16

/-- Object representation of an `AmsAddr` on host `e`. -/
def AmsAddr.image (e : Endian) (a : AmsAddr) : List Byte :=
  a.netId.image ++ objectBytes e sizeofU16 a.port

/-- The `AmsAddr` a host `e` sees in the object representation `bs`. -/
def AmsAddr.ofImage (e : Endian) (bs : List Byte) : AmsAddr :=
  { netId := AmsNetId.ofBytes bs
    port := objectValue e ((bs.drop AmsNetId.sizeof).take sizeofU16) }

/-- Modelled from the spec: the construction of an `AmsAddr` from a frame
pointer used by `targetAddr(frame)` and `sourceAddr(frame + ...)`; `AdsDef.h`
is not among the source files.  Following the spec (6 bytes of net id,
then a 16-bit port, little-endian on the wire) it reads the eight octets at
the pointer. -/
def AmsAddr.ofFrame (frame : List Byte) : AmsAddr :=
  { netId := AmsNetId.ofBytes frame
    port := qFromLittleEndian sizeofU16 (frame.drop AmsNetId.sizeof) }

/-- The call `memcpy(&dst, src, n)` for an `AmsAddr` destination: the first
`n` octets of the object representation of `dst` are replaced by those at
`src`. -/
def AmsAddr.memcpy (e : Endian) (dst : AmsAddr) (src : List Byte) (n : Nat) : AmsAddr :=
  AmsAddr.ofImage e (src.take n ++ (AmsAddr.image e dst).drop n)

/-- The packed struct `AoEHeader`. -/
structure AoEHeader where
  targetAddr : AmsAddr
  sourceAddr : AmsAddr
  cmdId : Nat
  stateFlags : Nat
  length : Nat
  errorCode : Nat
  invokeId : Nat
  deriving DecidableEq, Repr

namespace AoEHeader

def AMS_REQUEST : Nat := 0x0004
def AMS_RESPONSE : Nat := 0x0005
def AMS_UDP : Nat := 0x0040
def INVALID : Nat := 0x0000
def READ_DEVICE_INFO : Nat := 0x0001
def READ : Nat := 0x0002
def WRITE : Nat := 0x0003
def READ_STATE : Nat := 0x0004
def WRITE_CONTROL : Nat := 0x0005
def ADD_DEVICE_NOTIFICATION : Nat := 0x0006
def DEL_DEVICE_NOTIFICATION : Nat := 0x0007
def DEVICE_NOTIFICATION : Nat := 0x0008
def READ_WRITE : Nat := 0x0009

/-- The value of `offsetof(AoEHeader, sourceAddr)`. -/
def offsetofSourceAddr : Nat := AmsAddr.sizeof

/-- The value of `offsetof(AoEHeader, cmdId)`. -/
def offsetofCmdId : Nat := offsetofSourceAddr + AmsAddr.sizeof

/-- The value of `offsetof(AoEHeader, stateFlags)`. -/
def offsetofStateFlags : Nat := offsetofCmdId + sizeofU16

/-- The value of `offsetof(AoEHeader, length)`. -/
def offsetofLength : Nat := offsetofStateFlags + sizeofU16

/-- The value of `offsetof(AoEHeader, errorCode)`. -/
def offsetofErrorCode : Nat := offsetofLength + sizeofU32

/-- The value of `offsetof(AoEHeader, invokeId)`. -/
def offsetofInvokeId : Nat := offsetofErrorCode + sizeofU32

/-- The value of `sizeof(AoEHeader)` under `pack(1)`. -/
def sizeof : Nat := offsetofInvokeId + sizeofU32

/-- The all-zero address `{ { 0, 0, 0, 0, 0, 0 }, 0 }`. -/
def zeroAddr : AmsAddr := { netId := ⟨0, 0, 0, 0, 0, 0⟩, port := 0 }

/-- The default constructor `AoEHeader()`. -/
def init : AoEHeader :=
  { targetAddr := zeroAddr, sourceAddr := zeroAddr
    cmdId := 0, stateFlags := 0, length := 0, errorCode := 0, invokeId := 0 }

/-- The constructor
`AoEHeader(const AmsAddr&, const AmsAddr&, uint16_t, uint32_t, uint32_t)`:
the members are initialised with the arguments as they are, in host order. -/
def request (targetAddr sourceAddr : AmsAddr) (cmdId length invokeId : Nat) : AoEHeader :=
  { targetAddr := targetAddr
    sourceAddr := sourceAddr
    cmdId := cmdId
    stateFlags := AMS_REQUEST
    length := length
    errorCode := 0
    invokeId := invokeId }

/-- Object representation of an `AoEHeader` on host `e`. -/
def image (e : Endian) (h : AoEHeader) : List Byte :=
  AmsAddr.image e h.targetAddr ++ AmsAddr.image e h.sourceAddr
    ++ objectBytes e sizeofU16 h.cmdId ++ objectBytes e sizeofU16 h.stateFlags
    ++ objectBytes e sizeofU32 h.length ++ objectBytes e sizeofU32 h.errorCode
    ++ objectBytes e sizeofU32 h.invokeId

/-- The constructor `AoEHeader(const uint8_t *frame)`: the member initialisers followed by the
two `memcpy` calls of the constructor body. -/
def ofFrame (e : Endian) (frame : List Byte) : AoEHeader :=
  let targetAddr0 := AmsAddr.ofFrame frame
  let targetAddr1 := AmsAddr.memcpy e targetAddr0 frame AmsAddr.sizeof
  let targetAddr2 := AmsAddr.memcpy e targetAddr1 frame AmsAddr.sizeof
  { targetAddr := targetAddr2
    sourceAddr := AmsAddr.ofFrame (frame.drop offsetofSourceAddr)
    cmdId := qFromLittleEndian sizeofU16 (frame.drop offsetofCmdId)
    stateFlags := qFromLittleEndian sizeofU16 (frame.drop offsetofStateFlags)
    length := qFromLittleEndian sizeofU32 (frame.drop offsetofLength)
    errorCode := qFromLittleEndian sizeofU32 (frame.drop offsetofErrorCode)
    invokeId := qFromLittleEndian sizeofU32 (frame.drop offsetofInvokeId) }

/-- The decoder the spec prescribes: as `ofFrame`, with a single copy of
`targetAddr`. -/
def ofFrameSingleCopy (e : Endian) (frame : List Byte) : AoEHeader :=
  { targetAddr := AmsAddr.memcpy e (AmsAddr.ofFrame frame) frame AmsAddr.sizeof
    sourceAddr := AmsAddr.ofFrame (frame.drop offsetofSourceAddr)
    cmdId := qFromLittleEndian sizeofU16 (frame.drop offsetofCmdId)
    stateFlags := qFromLittleEndian sizeofU16 (frame.drop offsetofStateFlags)
    length := qFromLittleEndian sizeofU32 (frame.drop offsetofLength)
    errorCode := qFromLittleEndian sizeofU32 (frame.drop offsetofErrorCode)
    invokeId := qFromLittleEndian sizeofU32 (frame.drop offsetofInvokeId) }

end AoEHeader

/-! ## Response headers -/

/-- The struct `AoEResponseHeader`. -/
structure AoEResponseHeader where
  result : Nat
  deriving DecidableEq, Repr

/-- The value of `sizeof(AoEResponseHeader)`. -/
def AoEResponseHeader.sizeof : Nat := sizeofU32

/-- The default constructor `AoEResponseHeader()`. -/
def AoEResponseHeader.init : AoEResponseHeader :=
  { result := 0 }

/-- The constructor `AoEResponseHeader(const uint8_t *frame)`. -/
def AoEResponseHeader.ofFrame (frame : List Byte) : AoEResponseHeader :=
  { result := qFromLittleEndian sizeofU32 frame }

/-- The struct `AoEReadResponseHeader : AoEResponseHeader`. -/
structure AoEReadResponseHeader extends AoEResponseHeader where
  readLength : Nat
  deriving DecidableEq, Repr

/-- The default constructor `AoEReadResponseHeader()`; the base is default
constructed. -/
def AoEReadResponseHeader.init : AoEReadResponseHeader :=
  { toAoEResponseHeader := AoEResponseHeader.init
    readLength := 0 }

/-- The constructor `AoEReadResponseHeader(const uint8_t *frame)`: the base is
built from `frame`, `readLength` is read at `frame + sizeof(AoEResponseHeader)`. -/
def AoEReadResponseHeader.ofFrame (frame : List Byte) : AoEReadResponseHeader :=
  { toAoEResponseHeader := AoEResponseHeader.ofFrame frame
    readLength := qFromLittleEndian sizeofU32 (frame.drop AoEResponseHeader.sizeof) }

/-! ## `AmsResponse` -/

/-- What the template `AmsResponse<T>` asks of `T`: a default constructor and
a member `result`. -/
class ResponseHeader (T : Type) where
  init : T
  result : T → Nat

instance : ResponseHeader AoEResponseHeader where
  init := AoEResponseHeader.init
  result := AoEResponseHeader.result

instance : ResponseHeader AoEReadResponseHeader where
  init := AoEReadResponseHeader.init
  result := fun h => h.result

/-- The template struct `AmsResponse<T>`.  `long` is an unbounded integer here:
on the LP64 targets of the library every `uint32_t` fits a `long`. -/
structure AmsResponse (T : Type) where
  status : Int
  response : T

/-- The constructor `AmsResponse(long __status)`; `response` is default
constructed. -/
def AmsResponse.ofStatus {T : Type} [ResponseHeader T] (status : Int) : AmsResponse T :=
  { status := status, response := ResponseHeader.init }

/-- The constructor `AmsResponse(T header)`, which sets `status` to 0. -/
def AmsResponse.ofHeader {T : Type} (header : T) : AmsResponse T :=
  { status := 0, response := header }

/-- The method `AmsResponse::result()`: `status ? status : response.result`. -/
def AmsResponse.result {T : Type} [ResponseHeader T] (r : AmsResponse T) : Int :=
  if r.status ≠ 0 then r.status else (ResponseHeader.result r.response : Int)

/-! ## `AmsRouter` ports -/

namespace AmsRouter

/-- The constant `AmsRouter::NUM_PORTS_MAX`. -/
def NUM_PORTS_MAX : Nat := 8

/-- The constant `AmsRouter::PORT_BASE`. -/
def PORT_BASE : Nat := 30000

/-- The constant `UINT16_MAX`. -/
def UINT16_MAX : Nat := 65535

/-- The condition of the `static_assert` next to the constants. -/
def portLimitInRange : Bool := decide (PORT_BASE + NUM_PORTS_MAX ≤ UINT16_MAX)

/-- Modelled from the spec: the port number `PORT_BASE + index` that
`OpenPort` returns, computed as a `uint16_t`; `AmsRouter.cpp` is not among
the source files. -/
def portOfIndex (i : Nat) : Nat := (PORT_BASE + i) % 2 ^ 16

/-- Modelled from the spec: `AmsRouter::OpenPort`, whose body (`AmsRouter.cpp`)
is not among the source files.  The spec: it allocates the lowest free
index of the fixed set and returns `PORT_BASE + index`, and returns 0 when
the set is exhausted.  `ports i` tells whether bit `i` of the bitset is set. -/
def OpenPort (ports : Nat → Bool) : (Nat → Bool) × Nat :=
  match (List.range NUM_PORTS_MAX).find? (fun i => !ports i) with
  | some i => (fun j => if j = i then true else ports j, portOfIndex i)
  | none => (ports, 0)

end AmsRouter

/-! ## `usage` of the command line tool -/

/-- What a run that ends in `exit` leaves behind: the text written to
`std::cout`, the text written to `std::cerr`, and the exit status. -/
structure Terminated where
  cout : String
  cerr : String
  status : Nat
  deriving DecidableEq, Repr

/-- The routine `usage(const std::string& errorMessage)` of `main.cpp`;
`usageText` is the raw string literal that starts with `USAGE:`.  The
statement is `errorMessage.empty() ? std::cout : std::cerr << errorMessage <<
R"(...)"`; since `<<` binds tighter than `?:`, both insertions belong to the
third operand of the conditional, and the second operand is `std::cout` alone.
Then `exit(!errorMessage.empty())`. -/
def usage (usageText : String) (errorMessage : String) : Terminated :=
  let out : String × String :=
    if errorMessage.isEmpty then
      ("", "")
    else
      ("", "" ++ errorMessage ++ usageText)
  { cout := out.1
    cerr := out.2
    status := if !errorMessage.isEmpty then 1 else 0 }

/-! ## The command line tool: outcomes, device, environment -/

/-- An object thrown out of a function of the tool: an `AdsException` with its
`errorCode`, another `std::exception`, or anything else. -/
inductive Thrown where
  | adsException (errorCode : Int)
  | stdException
  | other
  deriving DecidableEq, Repr

/-- How the evaluation of a function of the tool ends: it returns an `int`, an
exception leaves it, or the process is ended by `exit`. -/
inductive Outcome where
  | returned (value : Int)
  | threw (t : Thrown)
  | exited (status : Nat)
  deriving DecidableEq, Repr

/-- Conversion of a `long` to the `int` that a command function or `main`
returns: the value is reduced modulo `2 ^ 32` into the range of `int`. -/
def intOfLong (x : Int) : Int :=
  (x + 2 ^ 31) % 2 ^ 32 - 2 ^ 31

/-- Modelled from the spec: the constant `ADSERR_NOERR` of `AdsDef.h`, which
is not among the source files; the spec gives 0 as the success code. -/
def ADSERR_NOERR : Int := 0

/-- A request handed to the device object, with its arguments. -/
inductive AdsCall where
  | ReadReqEx2 (group offset length : Nat)
  | WriteReqEx (group offset length : Nat) (buffer : List Byte)
  | ReadWriteReqEx2 (group offset readLength writeLength : Nat) (writeBuffer : List Byte)
  deriving DecidableEq, Repr

/-- What a read request leaves behind: the status it returns, the value
stored in `bytesRead` and the content of the caller's read buffer. -/
structure ReadResult where
  status : Int
  bytesRead : Nat
  buffer : List Byte
  deriving DecidableEq, Repr

/-- The part of class `AdsDevice` the tool uses.  `AdsDevice.h` is not among
the source files, so the behaviour of its members is a parameter: each member
is a function of the arguments it is called with. -/
structure AdsDevice where
  GetHandle : String → Except Thrown Nat
  ReadReqEx2 : Nat → Nat → Nat → ReadResult
  WriteReqEx : Nat → Nat → Nat → List Byte → Int
  ReadWriteReqEx2 : Nat → Nat → Nat → Nat → List Byte → ReadResult

/-- What the tool takes from headers and from the machine that are not among
the source files: the byte order of the host, the constants
`ADSIGRP_SYM_VALBYHND` and `AMSPORT_R0_PLC_TC3` of `AdsDef.h`, the conversion
`bhf::StringTo<T>` (first argument `sizeof(T)`), the constructor
`AdsDevice { gw, netid, port }`, which returns a device or throws, and
whether `std::cout` is in a good state after writing. -/
structure Env where
  host : Endian
  ADSIGRP_SYM_VALBYHND : Nat
  AMSPORT_R0_PLC_TC3 : Nat
  StringTo : Nat → String → Nat
  connect : String → AmsNetId → Nat → Except Thrown AdsDevice
  coutGood : Bool

/-- What a command function did: whether an `AdsDevice` was constructed, the
requests issued on it in order, the bytes written to `std::cout`, and how the
function ended.  Log messages are left out. -/
structure Run where
  deviceCreated : Bool
  calls : List AdsCall
  cout : List Byte
  outcome : Outcome
  deriving DecidableEq, Repr

/-- Width of `uint8_t` in bytes. -/
def sizeofU8 : Nat := 1

/-- Width of `uint64_t` in bytes. -/
def sizeofU64 : Nat := 8

/-- Modelled from the spec: `bhf::ads::letoh` of `wrap_endian.h`, which is not
among the source files.  It turns a `w`-byte value held in little-endian
order into the value of the host: the identity on a little-endian host, a byte
swap on a big-endian one. -/
def letoh (e : Endian) (w value : Nat) : Nat :=
  match e with
  | .little => value % 256 ^ w
  | .big => byteSwap w value

/-- The characters of `s` as octets. -/
def asciiBytes (s : String) : List Byte :=
  s.toList.map (fun c => ⟨c.toNat % 256, Nat.mod_lt _ (by decide)⟩)

/-- The octets `std::cout << std::dec << v << '\n'` writes. -/
def decimalLine (v : Nat) : List Byte :=
  asciiBytes (toString v) ++ [10]

/-- The value `!std::cout.good()` as an `int`. -/
def coutStatus (env : Env) : Int :=
  if env.coutGood then 0 else 1

/-- The port handed to the `AdsDevice` constructor by `RunRaw` and `RunVar`:
`port ? port : uint16_t(AMSPORT_R0_PLC_TC3)`. -/
def plcPort (env : Env) (port : Nat) : Nat :=
  if port ≠ 0 then port else env.AMSPORT_R0_PLC_TC3 % 2 ^ 16

/-! ## `RunRaw` -/

/-- The bytes `RunRaw` collects from standard input: `none` stands for a
terminal (`isatty(fileno(stdin))`), from which nothing is read; `some data`
stands for any other input, which is read byte by byte to its end. -/
def RunRaw.readStdin (stdin : Option (List Byte)) : List Byte :=
  match stdin with
  | some data => data
  | none => []

/-- The function `RunRaw` of `main.cpp`, from the point where `--read`,
`<IndexGroup>` and `<IndexOffset>` have been taken from the command line. -/
def RunRaw (env : Env) (netid : AmsNetId) (port : Nat) (gw : String)
    (group offset readLen : Nat) (stdin : Option (List Byte)) : Run :=
  let readBuffer : List Byte := List.replicate readLen 0
  let writeBuffer : List Byte := RunRaw.readStdin stdin
  if readBuffer.length = 0 ∧ writeBuffer.length = 0 then
    { deviceCreated := false, calls := [], cout := [], outcome := .returned (-1) }
  else
    match env.connect gw netid (plcPort env port) with
    | .error t => { deviceCreated := false, calls := [], cout := [], outcome := .threw t }
    | .ok device =>
      let step : AdsCall × Int × List Byte :=
        if writeBuffer.length = 0 then
          let r := device.ReadReqEx2 group offset readBuffer.length
          (.ReadReqEx2 group offset readBuffer.length, r.status, r.buffer.take readBuffer.length)
        else if readBuffer.length = 0 then
          (.WriteReqEx group offset writeBuffer.length writeBuffer,
            device.WriteReqEx group offset writeBuffer.length writeBuffer, readBuffer)
        else
          let r := device.ReadWriteReqEx2 group offset readBuffer.length writeBuffer.length
            writeBuffer
          (.ReadWriteReqEx2 group offset readBuffer.length writeBuffer.length writeBuffer,
            r.status, r.buffer.take readBuffer.length)
      if ADSERR_NOERR ≠ step.2.1 then
        { deviceCreated := true, calls := [step.1], cout := []
          outcome := .returned (intOfLong step.2.1) }
      else
        { deviceCreated := true, calls := [step.1], cout := step.2.2
          outcome := .returned (coutStatus env) }

/-! ## `RunVar` -/

/-- The table `typeMap` of `RunVar`. -/
def RunVar.typeMap : List (String × Nat) :=
  [("BOOL", 1), ("BYTE", 1), ("WORD", 2), ("DWORD", 4), ("LWORD", 8), ("STRING", 255)]

/-- The `switch (bytesRead)` of the read branch of `RunVar` with the final
`std::cout.write`: the bytes written to `std::cout`. -/
def RunVar.printRead (e : Endian) (readBuffer : List Byte) (bytesRead : Nat) : List Byte :=
  if bytesRead = sizeofU8 then
    decimalLine (objectValue e (readBuffer.take sizeofU8))
  else if bytesRead = sizeofU16 then
    decimalLine (letoh e sizeofU16 (objectValue e (readBuffer.take sizeofU16)))
  else if bytesRead = sizeofU32 then
    decimalLine (letoh e sizeofU32 (objectValue e (readBuffer.take sizeofU32)))
  else if bytesRead = sizeofU64 then
    decimalLine (letoh e sizeofU64 (objectValue e (readBuffer.take sizeofU64)))
  else
    readBuffer.take bytesRead

/-- The `switch (size)` of the write branch of `RunVar`: the length and the
buffer handed to `WriteReqEx`.  The integer cases pass `sizeof(writeBuffer)`
and the address of the converted value; the case for `sizeof(uint64_t)`
converts with `StringTo<uint32_t>`.  The default case passes a `size`-byte
vector filled by `strncpy`. -/
def RunVar.writeBuffer (env : Env) (size : Nat) (value : String) : Nat × List Byte :=
  if size = sizeofU8 then
    (sizeofU8, objectBytes env.host sizeofU8 (env.StringTo sizeofU8 value))
  else if size = sizeofU16 then
    (sizeofU16, objectBytes env.host sizeofU16 (env.StringTo sizeofU16 value))
  else if size = sizeofU32 then
    (sizeofU32, objectBytes env.host sizeofU32 (env.StringTo sizeofU32 value))
  else if size = sizeofU64 then
    (sizeofU32, objectBytes env.host sizeofU32 (env.StringTo sizeofU32 value))
  else
    (size, (asciiBytes value).take size
      ++ List.replicate (size - (asciiBytes value).length) 0)

/-- The function `RunVar` of `main.cpp`, from the point where `--type`, the
variable name and the optional value have been taken from the command line;
`value` is `none` for the null pointer. -/
def RunVar (env : Env) (netid : AmsNetId) (port : Nat) (gw : String)
    (type name : String) (value : Option String) : Run :=
  match RunVar.typeMap.lookup type with
  | none => { deviceCreated := false, calls := [], cout := [], outcome := .returned (-1) }
  | some size =>
    match env.connect gw netid (plcPort env port) with
    | .error t => { deviceCreated := false, calls := [], cout := [], outcome := .threw t }
    | .ok device =>
      match device.GetHandle name with
      | .error t => { deviceCreated := true, calls := [], cout := [], outcome := .threw t }
      | .ok handle =>
        match value with
        | none =>
          let r := device.ReadReqEx2 env.ADSIGRP_SYM_VALBYHND handle size
          if ADSERR_NOERR ≠ r.status then
            { deviceCreated := true
              calls := [.ReadReqEx2 env.ADSIGRP_SYM_VALBYHND handle size]
              cout := []
              outcome := .returned (intOfLong r.status) }
          else
            { deviceCreated := true
              calls := [.ReadReqEx2 env.ADSIGRP_SYM_VALBYHND handle size]
              cout := RunVar.printRead env.host (r.buffer.take size) r.bytesRead
              outcome := .returned (coutStatus env) }
        | some value =>
          let w := RunVar.writeBuffer env size value
          { deviceCreated := true
            calls := [.WriteReqEx env.ADSIGRP_SYM_VALBYHND handle w.1 w.2]
            cout := []
            outcome := .returned
              (intOfLong (device.WriteReqEx env.ADSIGRP_SYM_VALBYHND handle w.1 w.2)) }

/-! ## `ParseCommand` and `main` -/

/-- The values of the options of the list `global` after `args.Parse(global)`:
`none` for an option that is not on the command line, `some v` for
`--option=v`. -/
structure GlobalOptions where
  gw : Option String
  localams : Option String
  logLevel : Option String
  deriving DecidableEq, Repr

/-- The string `ParameterList::Get<std::string>` returns for an option of
`global`: the value given on the command line, and the empty string for an
option that was not given (the entries of `global` carry no default value,
unlike `{"--username", false, "Administrator"}`). -/
def GlobalOptions.value (o : Option String) : String :=
  o.getD ""

/-- The statements of `ParseCommand` that deal with the log level:
`logLevel = global.Get<size_t>("--log-level")`, then, under
`if (!localNetId.empty())`, `Logger::logLevel = std::max(logLevel, (size_t)4)`.
The result is the value assigned to `Logger::logLevel`, or `none` when no
assignment is made.  `StringTo` is the conversion `bhf::StringTo<T>` with
`sizeof(T)` as first argument. -/
def ParseCommand.logLevelAssignment (StringTo : Nat → String → Nat)
    (global : GlobalOptions) : Option Nat :=
  let localNetId := GlobalOptions.value global.localams
  let logLevel := StringTo sizeofU64 (GlobalOptions.value global.logLevel)
  if !localNetId.isEmpty then
    some (max logLevel 4)
  else
    none

/-- The value of `Logger::logLevel` after these statements, when it was
`old` before. -/
def ParseCommand.logLevelAfter (StringTo : Nat → String → Nat) (global : GlobalOptions)
    (old : Nat) : Nat :=
  (ParseCommand.logLevelAssignment StringTo global).getD old

/-- The function `main` of `main.cpp`, given how the call of `ParseCommand`
ends.  The handlers are tried in the order of the source: `AdsException`,
`std::exception`, `...`; a process ended by `exit` never comes back to `main`. -/
def main (parseCommand : Outcome) : Outcome :=
  match parseCommand with
  | .returned v => .returned v
  | .threw (.adsException errorCode) => .returned (intOfLong errorCode)
  | .threw .stdException => .returned (-2)
  | .threw .other => .returned (-1)
  | .exited status => .exited status

/-! ## Sample data -/

/-- A 32-byte frame: target `5.24.37.144.1.1:851`, source `10.0.0.7.1.1:30000`,
command `READ`, state flags `AMS_RESPONSE`, length 8, error code 0,
invoke id `0x01020304`. -/
def sampleFrame : List Byte :=
  [5, 24, 37, 144, 1, 1, 0x53, 0x03,
   10, 0, 0, 7, 1, 1, 0x30, 0x75,
   2, 0, 5, 0, 8, 0, 0, 0, 0, 0, 0, 0, 4, 3, 2, 1]

/-- A conversion for sample runs: the value of a string of decimal digits. -/
def sampleStringTo (_w : Nat) (s : String) : Nat :=
  s.toList.foldl (fun acc c => 10 * acc + (c.toNat - 48)) 0

/-- A device for sample runs: every variable has handle `0x1234`, every read
stores the four bytes `61 62 63 00` (the string `abc`) and succeeds, every
write succeeds. -/
def sampleDevice : AdsDevice :=
  { GetHandle := fun _ => .ok 0x1234
    ReadReqEx2 := fun _ _ length =>
      { status := 0
        bytesRead := 4
        buffer := [0x61, 0x62, 0x63, 0] ++ List.replicate (length - 4) 0 }
    WriteReqEx := fun _ _ _ _ => 0
    ReadWriteReqEx2 := fun _ _ length _ _ =>
      { status := 0
        bytesRead := 4
        buffer := [0x61, 0x62, 0x63, 0] ++ List.replicate (length - 4) 0 } }

/-- An environment for sample runs: a little-endian host on which the device
constructor returns `sampleDevice`. -/
def sampleEnv : Env :=
  { host := .little
    ADSIGRP_SYM_VALBYHND := 0xF005
    AMSPORT_R0_PLC_TC3 := 851
    StringTo := sampleStringTo
    connect := fun _ _ _ => .ok sampleDevice
    coutGood := true }

/-- The net id `5.24.37.144.1.1` of the examples in the usage text. -/
def sampleNetId : AmsNetId := ⟨5, 24, 37, 144, 1, 1⟩

/-! ## Lemmas on the byte codec -/

theorem leBytes_length (w v : Nat) : (leBytes w v).length = w := by
  induction w generalizing v with
  | zero => rfl
  | succ w ih => simp [leBytes, ih]

theorem leValue_leBytes (w v : Nat) : leValue (leBytes w v) = v % 256 ^ w := by
  induction w generalizing v with
  | zero => simp [leBytes, leValue, Nat.mod_one]
  | succ w ih =>
    simp only [leBytes, leValue, ih]
    rw [pow_succ, Nat.mul_comm (256 ^ w) 256, Nat.mod_mul]

theorem leBytes_leValue (bs : List Byte) : leBytes bs.length (leValue bs) = bs := by
  induction bs with
  | nil => rfl
  | cons b bs ih =>
    have hb : b.val < 256 := b.isLt
    have h1 : (b.val + 256 * leValue bs) % 256 = b.val := by omega
    have h2 : (b.val + 256 * leValue bs) / 256 = leValue bs := by omega
    simp only [List.length_cons, leBytes, leValue, h1, h2, ih]

theorem leBytes_leValue_of_length (w : Nat) (bs : List Byte) (h : bs.length = w) :
    leBytes w (leValue bs) = bs := by
  subst h
  exact leBytes_leValue bs

theorem objectBytes_length (e : Endian) (w v : Nat) : (objectBytes e w v).length = w := by
  cases e <;> simp [objectBytes, leBytes_length]

theorem leBytes_mod (w v : Nat) : leBytes w (v % 256 ^ w) = leBytes w v := by
  have h := leBytes_leValue_of_length w (leBytes w v) (leBytes_length w v)
  rw [leValue_leBytes] at h
  exact h

/-- The object representation of `qToLittleEndian(v)` is `v` in little-endian
order on every host. -/
theorem objectBytes_qToLittleEndian (e : Endian) (w v : Nat) :
    objectBytes e w (qToLittleEndian e w v) = leBytes w v := by
  cases e with
  | little => simp [objectBytes, qToLittleEndian, leBytes_mod]
  | big =>
    simp only [objectBytes, qToLittleEndian, byteSwap]
    rw [leBytes_leValue_of_length w _ (by simp [leBytes_length]), List.reverse_reverse]

/-- Reading back the object representation of a value that fits gives the value. -/
theorem objectValue_objectBytes (e : Endian) (w v : Nat) :
    objectValue e (objectBytes e w v) = v % 256 ^ w := by
  cases e <;> simp [objectValue, objectBytes, leValue_leBytes]

/-- Writing the value a host sees in `bs` reproduces `bs`. -/
theorem objectBytes_objectValue (e : Endian) (w : Nat) (bs : List Byte) (h : bs.length = w) :
    objectBytes e w (objectValue e bs) = bs := by
  cases e with
  | little => simpa [objectBytes, objectValue] using leBytes_leValue_of_length w bs h
  | big =>
    simp only [objectBytes, objectValue]
    rw [leBytes_leValue_of_length w _ (by simpa using h), List.reverse_reverse]

/-- The four octets of `leBytes 4 n`, spelled out. -/
theorem leBytes_four_val (n : Nat) :
    (leBytes 4 n).map Fin.val
      = [n % 256, n / 256 % 256, n / 65536 % 256, n / 16777216 % 256] := by
  simp only [leBytes, List.map_cons, List.map_nil, Nat.div_div_eq_div_mul]

/-- The image of `AmsTcpHeader(n)`: a zero `reserved`, then `n` little-endian. -/
theorem AmsTcpHeader.image_ofLength (e : Endian) (n : Nat) :
    AmsTcpHeader.image e (AmsTcpHeader.ofLength e n) = [0, 0] ++ leBytes 4 n := by
  simp only [AmsTcpHeader.image, AmsTcpHeader.ofLength, sizeofU32, sizeofU16,
    objectBytes_qToLittleEndian]
  cases e <;> rfl

theorem AmsNetId.netId_image_length (n : AmsNetId) : n.image.length = 6 := rfl

theorem AmsAddr.addr_image_length (e : Endian) (a : AmsAddr) :
    (AmsAddr.image e a).length = AmsAddr.sizeof := by
  simp [AmsAddr.image, AmsAddr.sizeof, AmsNetId.sizeof, AmsNetId.netId_image_length,
    objectBytes_length]

theorem AmsNetId.image_ofBytes (bs : List Byte) (h : 6 ≤ bs.length) :
    (AmsNetId.ofBytes bs).image = bs.take 6 := by
  rcases bs with _ | ⟨b0, _ | ⟨b1, _ | ⟨b2, _ | ⟨b3, _ | ⟨b4, _ | ⟨b5, rest⟩⟩⟩⟩⟩⟩
  all_goals first
    | (simp at h; done)
    | (simp at h; omega)
    | simp [AmsNetId.ofBytes, AmsNetId.image]

/-- Reinterpreting eight octets as an `AmsAddr` and looking at its object
representation gives the eight octets back. -/
theorem AmsAddr.image_ofImage (e : Endian) (bs : List Byte) (h : bs.length = 8) :
    AmsAddr.image e (AmsAddr.ofImage e bs) = bs := by
  have h2 : ((bs.drop 6).take 2).length = 2 := by simp [h]
  have h3 : (bs.drop 6).take 2 = bs.drop 6 :=
    List.take_of_length_le (by simp [h])
  simp only [AmsAddr.image, AmsAddr.ofImage, AmsNetId.sizeof, sizeofU16]
  rw [AmsNetId.image_ofBytes bs (by omega), objectBytes_objectValue e 2 _ h2, h3,
    List.take_append_drop]

/-- A `memcpy` of `sizeof(AmsAddr)` octets overwrites the whole destination. -/
theorem AmsAddr.memcpy_sizeof (e : Endian) (dst : AmsAddr) (src : List Byte) :
    AmsAddr.memcpy e dst src AmsAddr.sizeof = AmsAddr.ofImage e (src.take 8) := by
  have h : (AmsAddr.image e dst).drop AmsAddr.sizeof = [] :=
    List.drop_of_length_le (le_of_eq (AmsAddr.addr_image_length e dst))
  simp only [AmsAddr.memcpy, h, List.append_nil]
  rfl

/-- The frame constructor of `AmsAddr` looks at eight octets only. -/
theorem AmsAddr.ofFrame_take (frame : List Byte) :
    AmsAddr.ofFrame (frame.take 8) = AmsAddr.ofFrame frame := by
  rcases frame with _ | ⟨b0, _ | ⟨b1, _ | ⟨b2, _ | ⟨b3, _ | ⟨b4, _ | ⟨b5, _ | ⟨b6, _ | ⟨b7, rest⟩⟩⟩⟩⟩⟩⟩⟩ <;>
    simp [AmsAddr.ofFrame, AmsNetId.ofBytes, qFromLittleEndian, AmsNetId.sizeof, sizeofU16]

/-- On a little-endian host the request constructor and the frame constructor
of `AoEHeader` are inverse to each other on the integer members. -/
theorem AoEHeader.roundtrip_little (t s : AmsAddr) (cmdId length invokeId : Nat)
    (hc : cmdId < 2 ^ 16) (hl : length < 2 ^ 32) (hi : invokeId < 2 ^ 32) :
    let h := AoEHeader.ofFrame .little
      (AoEHeader.image .little (AoEHeader.request t s cmdId length invokeId))
    h.cmdId = cmdId ∧ h.stateFlags = AoEHeader.AMS_REQUEST ∧ h.length = length
      ∧ h.errorCode = 0 ∧ h.invokeId = invokeId := by
  simp [AoEHeader.ofFrame, AoEHeader.image, AoEHeader.request, AmsAddr.image, AmsNetId.image,
    objectBytes, leBytes, qFromLittleEndian, leValue, sizeofU16, sizeofU32,
    AoEHeader.offsetofCmdId, AoEHeader.offsetofStateFlags, AoEHeader.offsetofLength,
    AoEHeader.offsetofErrorCode, AoEHeader.offsetofInvokeId, AoEHeader.offsetofSourceAddr,
    AmsAddr.sizeof, AmsNetId.sizeof, AoEHeader.AMS_REQUEST]
  omega

/-- The value `result()` returns, by cases on the local status. -/
theorem AmsResponse.result_eq_zero_iff {T : Type} [ResponseHeader T] (r : AmsResponse T) :
    r.result = 0 ↔ r.status = 0 ∧ ResponseHeader.result r.response = 0 := by
  unfold AmsResponse.result
  by_cases hs : r.status = 0
  · simp [hs]
  · simp [hs]

/-- The scan of `OpenPort` finds nothing exactly when every bit is set. -/
theorem AmsRouter.find_free_eq_none (ports : Nat → Bool) :
    (List.range AmsRouter.NUM_PORTS_MAX).find? (fun i => !ports i) = none
      ↔ ∀ j, j < AmsRouter.NUM_PORTS_MAX → ports j = true := by
  simp [List.find?_eq_none, List.mem_range]

/-- With a non-empty message `usage` writes the message and the usage text to
`std::cerr`, nothing to `std::cout`, and exits with status 1. -/
theorem usage_of_nonempty (usageText errorMessage : String)
    (h : errorMessage.isEmpty = false) :
    usage usageText errorMessage
      = { cout := "", cerr := errorMessage ++ usageText, status := 1 } := by
  simp [usage, h]

/-! ## Lemmas on the command line tool -/

theorem leValue_lt (bs : List Byte) : leValue bs < 256 ^ bs.length := by
  induction bs with
  | nil => simp [leValue]
  | cons b bs ih =>
    have hb : b.val < 256 := b.isLt
    simp only [leValue, List.length_cons, pow_succ]
    omega

/-- Reading an integer from memory and applying `letoh` gives the
little-endian value of the octets, on a host of either byte order. -/
theorem letoh_objectValue (e : Endian) (w : Nat) (bs : List Byte) (h : bs.length = w) :
    letoh e w (objectValue e bs) = leValue bs := by
  cases e with
  | little =>
    simp only [letoh, objectValue]
    exact Nat.mod_eq_of_lt (h ▸ leValue_lt bs)
  | big =>
    simp only [letoh, objectValue, byteSwap]
    rw [leBytes_leValue_of_length w _ (by simpa using h), List.reverse_reverse]

/-- Values in the range of `int` are unchanged by the conversion from `long`. -/
theorem intOfLong_of_range (c : Int) (hlo : -2 ^ 31 ≤ c) (hhi : c < 2 ^ 31) :
    intOfLong c = c := by
  unfold intOfLong
  omega

/-- When `--localams` has a non-empty value, the value assigned to
`Logger::logLevel` is the larger one of the requested level and 4. -/
theorem ParseCommand.logLevelAssignment_of_localams (StringTo : Nat → String → Nat)
    (global : GlobalOptions) (h : (GlobalOptions.value global.localams).isEmpty = false) :
    ParseCommand.logLevelAssignment StringTo global
      = some (max (StringTo sizeofU64 (GlobalOptions.value global.logLevel)) 4) := by
  simp [ParseCommand.logLevelAssignment, h]

/-- When `--localams` is missing or empty, no value is assigned to
`Logger::logLevel`. -/
theorem ParseCommand.logLevelAssignment_of_no_localams (StringTo : Nat → String → Nat)
    (global : GlobalOptions) (h : (GlobalOptions.value global.localams).isEmpty = true) :
    ParseCommand.logLevelAssignment StringTo global = none := by
  simp [ParseCommand.logLevelAssignment, h]

/-- The write branch of `RunVar`, once the type is known and the device and
the handle are there. -/
theorem RunVar.write_run (env : Env) (netid : AmsNetId) (port : Nat)
    (gw type name value : String) (size : Nat) (device : AdsDevice) (handle : Nat)
    (htype : RunVar.typeMap.lookup type = some size)
    (hconn : env.connect gw netid (plcPort env port) = .ok device)
    (hhandle : device.GetHandle name = .ok handle) :
    RunVar env netid port gw type name (some value)
      = { deviceCreated := true
          calls := [.WriteReqEx env.ADSIGRP_SYM_VALBYHND handle
            (RunVar.writeBuffer env size value).1 (RunVar.writeBuffer env size value).2]
          cout := []
          outcome := .returned (intOfLong (device.WriteReqEx env.ADSIGRP_SYM_VALBYHND handle
            (RunVar.writeBuffer env size value).1 (RunVar.writeBuffer env size value).2)) } := by
  simp only [RunVar, htype, hconn, hhandle]

/-- The read branch of `RunVar` after a successful read: what is written to
`std::cout` depends on `bytesRead` and on the buffer, not on the type. -/
theorem RunVar.read_run (env : Env) (netid : AmsNetId) (port : Nat)
    (gw type name : String) (size : Nat) (device : AdsDevice) (handle : Nat)
    (htype : RunVar.typeMap.lookup type = some size)
    (hconn : env.connect gw netid (plcPort env port) = .ok device)
    (hhandle : device.GetHandle name = .ok handle)
    (hstatus : (device.ReadReqEx2 env.ADSIGRP_SYM_VALBYHND handle size).status = 0) :
    (RunVar env netid port gw type name none).cout
      = RunVar.printRead env.host
          ((device.ReadReqEx2 env.ADSIGRP_SYM_VALBYHND handle size).buffer.take size)
          (device.ReadReqEx2 env.ADSIGRP_SYM_VALBYHND handle size).bytesRead := by
  simp [RunVar, htype, hconn, hhandle, hstatus, ADSERR_NOERR]

/-- A read of four bytes is printed as a decimal number, the little-endian
value of the four bytes, whatever the type is. -/
theorem RunVar.printRead_four (e : Endian) (readBuffer : List Byte)
    (h : 4 ≤ readBuffer.length) :
    RunVar.printRead e readBuffer 4 = decimalLine (leValue (readBuffer.take 4)) := by
  simp only [RunVar.printRead, sizeofU8, sizeofU16, sizeofU32]
  rw [letoh_objectValue e 4 _ (by simp; omega)]
  simp

/-- A read of a number of bytes other than 1, 2, 4 and 8 is printed as the raw
bytes. -/
theorem RunVar.printRead_raw (e : Endian) (readBuffer : List Byte) (n : Nat)
    (h1 : n ≠ 1) (h2 : n ≠ 2) (h4 : n ≠ 4) (h8 : n ≠ 8) :
    RunVar.printRead e readBuffer n = readBuffer.take n := by
  simp [RunVar.printRead, sizeofU8, sizeofU16, sizeofU32, sizeofU64, h1, h2, h4, h8]

/-- The run of `RunRaw` once the device is there, for lengths that are not
both zero. -/
theorem RunRaw.calls_of_connect (env : Env) (netid : AmsNetId) (port : Nat) (gw : String)
    (group offset readLen : Nat) (stdin : Option (List Byte)) (device : AdsDevice)
    (hconn : env.connect gw netid (plcPort env port) = .ok device)
    (hnz : ¬ (readLen = 0 ∧ (RunRaw.readStdin stdin).length = 0)) :
    (RunRaw env netid port gw group offset readLen stdin).calls
      = [if (RunRaw.readStdin stdin).length = 0 then
           .ReadReqEx2 group offset readLen
         else if readLen = 0 then
           .WriteReqEx group offset (RunRaw.readStdin stdin).length (RunRaw.readStdin stdin)
         else
           .ReadWriteReqEx2 group offset readLen (RunRaw.readStdin stdin).length
             (RunRaw.readStdin stdin)]
      ∧ (RunRaw env netid port gw group offset readLen stdin).deviceCreated = true := by
  have hnz2 : ¬ ((List.replicate readLen (0 : Byte)).length = 0
      ∧ (RunRaw.readStdin stdin).length = 0) := by simpa using hnz
  simp only [RunRaw, hnz2, if_false, hconn]
  by_cases hw : (RunRaw.readStdin stdin).length = 0
  · simp only [hw, if_true]
    split <;> simp
  · by_cases hr : readLen = 0
    · simp only [hw, if_false, hr, List.replicate_zero, List.length_nil, if_true]
      split <;> simp
    · have hr2 : ¬ (List.replicate readLen (0 : Byte)).length = 0 := by simpa using hr
      simp only [hw, if_false, hr2, hr]
      split <;> simp

/-! ## Theorems -/

/-- C1: building `AmsTcpHeader(n)` for a 32-bit `n`, taking its packed image
as a frame and decoding the frame yields a header whose `length()` is `n`,
on a host of either byte order. -/
theorem amsTcpHeader_roundtrip (e : Endian) (n : Nat) (hn : n < 2 ^ 32) :
    AmsTcpHeader.length e
      (AmsTcpHeader.ofFrame e (AmsTcpHeader.image e (AmsTcpHeader.ofLength e n))) = n := by
  have hdrop : (([0, 0] ++ leBytes 4 n : List Byte).drop sizeofU16).take sizeofU32
      = leBytes 4 n := by
    have hl := leBytes_length 4 n
    simp [sizeofU16, sizeofU32, List.take_of_length_le, hl]
  simp only [AmsTcpHeader.length, AmsTcpHeader.ofFrame, AmsTcpHeader.image_ofLength, hdrop,
    qFromLittleEndian]
  rw [objectBytes_objectValue e sizeofU32 _ (leBytes_length 4 n),
    List.take_of_length_le (by simp [leBytes_length, sizeofU32]), leValue_leBytes]
  exact Nat.mod_eq_of_lt (by simpa using hn)

/-- Witness for C1: a big-endian host and `n = 0x12345678`. -/
theorem amsTcpHeader_roundtrip_witness :
    (0x12345678 : Nat) < 2 ^ 32
    ∧ AmsTcpHeader.length .big
        (AmsTcpHeader.ofFrame .big
          (AmsTcpHeader.image .big (AmsTcpHeader.ofLength .big 0x12345678))) = 0x12345678 :=
  ⟨by decide, amsTcpHeader_roundtrip .big 0x12345678 (by decide)⟩

/-- C2, evaluated at the failing input: on a big-endian host the image of
`AoEHeader(zero, zero, READ, 4, 1)` carries the integer members in big-endian
order, and decoding it gives `cmdId = 0x0200`, `stateFlags = 0x0400`,
`length = 0x04000000` and `invokeId = 0x01000000` instead of 2, 4, 4 and 1. -/
theorem aoEHeader_roundtrip_fails_big :
    AoEHeader.image .big
        (AoEHeader.request AoEHeader.zeroAddr AoEHeader.zeroAddr AoEHeader.READ 4 1)
      = [0, 0, 0, 0, 0, 0, 0, 0, 0, 0, 0, 0, 0, 0, 0, 0,
         0, 2, 0, 4, 0, 0, 0, 4, 0, 0, 0, 0, 0, 0, 0, 1]
    ∧ AoEHeader.ofFrame .big
        (AoEHeader.image .big
          (AoEHeader.request AoEHeader.zeroAddr AoEHeader.zeroAddr AoEHeader.READ 4 1))
      = { targetAddr := AoEHeader.zeroAddr, sourceAddr := AoEHeader.zeroAddr
          cmdId := 0x0200, stateFlags := 0x0400, length := 0x04000000
          errorCode := 0, invokeId := 0x01000000 } := by
  decide

/-- C3: the packed `AoEHeader` is 32 bytes, and for a frame of (at least) 32
bytes the frame constructor gives `targetAddr` the object representation found
in bytes 0..7, exactly as a single `memcpy` would, builds `sourceAddr` from
bytes 8..15, and reads `cmdId`, `stateFlags`, `length`, `errorCode` and
`invokeId` as little-endian integers from bytes 16..17, 18..19, 20..23, 24..27
and 28..31. -/
theorem aoEHeader_decode_layout (e : Endian) (frame : List Byte) (hlen : 32 ≤ frame.length) :
    AoEHeader.sizeof = 32
    ∧ (∀ h : AoEHeader, (AoEHeader.image e h).length = 32)
    ∧ AoEHeader.ofFrame e frame = AoEHeader.ofFrameSingleCopy e frame
    ∧ AmsAddr.image e (AoEHeader.ofFrame e frame).targetAddr = frame.take 8
    ∧ (AoEHeader.ofFrame e frame).sourceAddr = AmsAddr.ofFrame ((frame.drop 8).take 8)
    ∧ (AoEHeader.ofFrame e frame).sourceAddr.netId.image = (frame.drop 8).take 6
    ∧ (AoEHeader.ofFrame e frame).sourceAddr.port = leValue ((frame.drop 14).take 2)
    ∧ (AoEHeader.ofFrame e frame).cmdId = leValue ((frame.drop 16).take 2)
    ∧ (AoEHeader.ofFrame e frame).stateFlags = leValue ((frame.drop 18).take 2)
    ∧ (AoEHeader.ofFrame e frame).length = leValue ((frame.drop 20).take 4)
    ∧ (AoEHeader.ofFrame e frame).errorCode = leValue ((frame.drop 24).take 4)
    ∧ (AoEHeader.ofFrame e frame).invokeId = leValue ((frame.drop 28).take 4) := by
  have htarget : (AoEHeader.ofFrame e frame).targetAddr = AmsAddr.ofImage e (frame.take 8) := by
    simp only [AoEHeader.ofFrame, AmsAddr.memcpy_sizeof]
  refine ⟨rfl, ?_, ?_, ?_, ?_, ?_, ?_, rfl, rfl, rfl, rfl, rfl⟩
  · intro h
    simp [AoEHeader.image, AmsAddr.addr_image_length, objectBytes_length, AmsAddr.sizeof,
      AmsNetId.sizeof, sizeofU16, sizeofU32]
  · simp only [AoEHeader.ofFrame, AoEHeader.ofFrameSingleCopy, AmsAddr.memcpy_sizeof]
  · rw [htarget]
    exact AmsAddr.image_ofImage e _ (by simp; omega)
  · exact (AmsAddr.ofFrame_take (frame.drop 8)).symm
  · have h6 : 6 ≤ (frame.drop 8).length := by simp; omega
    exact AmsNetId.image_ofBytes _ h6
  · simp [AoEHeader.ofFrame, AmsAddr.ofFrame, qFromLittleEndian, AoEHeader.offsetofSourceAddr,
      AmsAddr.sizeof, AmsNetId.sizeof, sizeofU16]

/-- Witness for C3: the sample frame on a big-endian host. -/
theorem aoEHeader_decode_layout_witness :
    32 ≤ sampleFrame.length
    ∧ AoEHeader.ofFrame .big sampleFrame = AoEHeader.ofFrameSingleCopy .big sampleFrame
    ∧ AmsAddr.image .big (AoEHeader.ofFrame .big sampleFrame).targetAddr
        = sampleFrame.take 8 :=
  ⟨by decide,
    (aoEHeader_decode_layout .big sampleFrame (by decide)).2.2.1,
    (aoEHeader_decode_layout .big sampleFrame (by decide)).2.2.2.1⟩

/-- C4: the packed image of `AmsTcpHeader(n)` is exactly 6 bytes, two zero
bytes (`reserved`) followed by `n` as a 4-byte little-endian integer, on a
host of either byte order. -/
theorem amsTcpHeader_image (e : Endian) (n : Nat) :
    AmsTcpHeader.image e (AmsTcpHeader.ofLength e n) = [0, 0] ++ leBytes 4 n
    ∧ (AmsTcpHeader.image e (AmsTcpHeader.ofLength e n)).map Fin.val
        = [0, 0, n % 256, n / 256 % 256, n / 65536 % 256, n / 16777216 % 256]
    ∧ (AmsTcpHeader.image e (AmsTcpHeader.ofLength e n)).length = 6
    ∧ AmsTcpHeader.sizeof = 6 := by
  refine ⟨AmsTcpHeader.image_ofLength e n, ?_, ?_, rfl⟩
  · rw [AmsTcpHeader.image_ofLength, List.map_append, leBytes_four_val]
    rfl
  · rw [AmsTcpHeader.image_ofLength]
    simp [leBytes_length]

/-- C5: the packed image of `AoERequestHeader(indexGroup, indexOffset,
dataLength)` is exactly 12 bytes: the three values in this order, each as a
4-byte little-endian integer, on a host of either byte order. -/
theorem aoERequestHeader_image (e : Endian) (indexGroup indexOffset dataLength : Nat) :
    AoERequestHeader.image e (AoERequestHeader.ofGroupOffset e indexGroup indexOffset dataLength)
      = leBytes 4 indexGroup ++ leBytes 4 indexOffset ++ leBytes 4 dataLength
    ∧ (AoERequestHeader.image e
        (AoERequestHeader.ofGroupOffset e indexGroup indexOffset dataLength)).map Fin.val
      = [indexGroup % 256, indexGroup / 256 % 256, indexGroup / 65536 % 256,
         indexGroup / 16777216 % 256,
         indexOffset % 256, indexOffset / 256 % 256, indexOffset / 65536 % 256,
         indexOffset / 16777216 % 256,
         dataLength % 256, dataLength / 256 % 256, dataLength / 65536 % 256,
         dataLength / 16777216 % 256]
    ∧ (AoERequestHeader.image e
        (AoERequestHeader.ofGroupOffset e indexGroup indexOffset dataLength)).length = 12 := by
  have h : AoERequestHeader.image e
      (AoERequestHeader.ofGroupOffset e indexGroup indexOffset dataLength)
      = leBytes 4 indexGroup ++ leBytes 4 indexOffset ++ leBytes 4 dataLength := by
    simp only [AoERequestHeader.image, AoERequestHeader.ofGroupOffset, sizeofU32,
      objectBytes_qToLittleEndian]
  refine ⟨h, ?_, ?_⟩
  · rw [h]
    simp only [List.map_append, leBytes_four_val]
    rfl
  · rw [h]
    simp [leBytes_length]

/-- C6: the packed image of `AdsAddDeviceNotificationRequest(group, offset,
length, mode, maxDelay, cycleTime)` is exactly 40 bytes: the six values in this
order, each as a 4-byte little-endian integer, then 16 zero bytes, on a host
of either byte order. -/
theorem adsAddDeviceNotificationRequest_image (e : Endian)
    (group offset length mode maxDelay cycleTime : Nat) :
    AdsAddDeviceNotificationRequest.image e
        (AdsAddDeviceNotificationRequest.ofAttrib e group offset length mode maxDelay cycleTime)
      = leBytes 4 group ++ leBytes 4 offset ++ leBytes 4 length ++ leBytes 4 mode
          ++ leBytes 4 maxDelay ++ leBytes 4 cycleTime ++ List.replicate 16 0
    ∧ (AdsAddDeviceNotificationRequest.image e
        (AdsAddDeviceNotificationRequest.ofAttrib e group offset length mode maxDelay
          cycleTime)).map Fin.val
      = [group % 256, group / 256 % 256, group / 65536 % 256, group / 16777216 % 256,
         offset % 256, offset / 256 % 256, offset / 65536 % 256, offset / 16777216 % 256,
         length % 256, length / 256 % 256, length / 65536 % 256, length / 16777216 % 256,
         mode % 256, mode / 256 % 256, mode / 65536 % 256, mode / 16777216 % 256,
         maxDelay % 256, maxDelay / 256 % 256, maxDelay / 65536 % 256,
         maxDelay / 16777216 % 256,
         cycleTime % 256, cycleTime / 256 % 256, cycleTime / 65536 % 256,
         cycleTime / 16777216 % 256,
         0, 0, 0, 0, 0, 0, 0, 0, 0, 0, 0, 0, 0, 0, 0, 0]
    ∧ (AdsAddDeviceNotificationRequest.image e
        (AdsAddDeviceNotificationRequest.ofAttrib e group offset length mode maxDelay
          cycleTime)).length = 40 := by
  have h : AdsAddDeviceNotificationRequest.image e
      (AdsAddDeviceNotificationRequest.ofAttrib e group offset length mode maxDelay cycleTime)
      = leBytes 4 group ++ leBytes 4 offset ++ leBytes 4 length ++ leBytes 4 mode
          ++ leBytes 4 maxDelay ++ leBytes 4 cycleTime ++ List.replicate 16 0 := by
    simp only [AdsAddDeviceNotificationRequest.image, AdsAddDeviceNotificationRequest.ofAttrib,
      sizeofU32, objectBytes_qToLittleEndian]
  refine ⟨h, ?_, ?_⟩
  · rw [h]
    simp only [List.map_append, leBytes_four_val]
    rfl
  · rw [h]
    simp [leBytes_length]

/-- C7: for a frame of at least 8 bytes `AoEReadResponseHeader(frame)` has
`result` equal to the little-endian 32-bit integer in bytes 0..3, the value
`AoEResponseHeader(frame)` decodes, and `readLength` equal to the little-endian
32-bit integer in bytes 4..7; the default-constructed headers have `result` 0
and `readLength` 0. -/
theorem readResponseHeader_decode (b0 b1 b2 b3 b4 b5 b6 b7 : Byte) (rest : List Byte) :
    (AoEReadResponseHeader.ofFrame (b0 :: b1 :: b2 :: b3 :: b4 :: b5 :: b6 :: b7 :: rest)).result
      = b0.val + 256 * b1.val + 65536 * b2.val + 16777216 * b3.val
    ∧ (AoEReadResponseHeader.ofFrame
        (b0 :: b1 :: b2 :: b3 :: b4 :: b5 :: b6 :: b7 :: rest)).result
      = (AoEResponseHeader.ofFrame (b0 :: b1 :: b2 :: b3 :: b4 :: b5 :: b6 :: b7 :: rest)).result
    ∧ (AoEReadResponseHeader.ofFrame
        (b0 :: b1 :: b2 :: b3 :: b4 :: b5 :: b6 :: b7 :: rest)).readLength
      = b4.val + 256 * b5.val + 65536 * b6.val + 16777216 * b7.val
    ∧ AoEResponseHeader.init.result = 0
    ∧ AoEReadResponseHeader.init.result = 0
    ∧ AoEReadResponseHeader.init.readLength = 0 := by
  refine ⟨?_, rfl, ?_, rfl, rfl, rfl⟩
  · simp only [AoEReadResponseHeader.ofFrame, AoEResponseHeader.ofFrame, qFromLittleEndian,
      sizeofU32, List.take_succ_cons, List.take_zero, leValue]
    omega
  · simp only [AoEReadResponseHeader.ofFrame, AoEResponseHeader.sizeof, qFromLittleEndian,
      sizeofU32, List.drop_succ_cons, List.drop_zero, List.take_succ_cons, List.take_zero,
      leValue]
    omega

/-- C8: `AmsResponse::result()` passes codes through: built from a local
status `s` it returns `s`; built from a response header it returns the header's
ADS result code; it is 0 exactly when the local status and the ADS result code
are both 0; a non-zero local status takes precedence over the response code.
Stated for the two response header types of `AmsHeader.h`. -/
theorem amsResponse_result :
    (∀ s : Int, (AmsResponse.ofStatus s : AmsResponse AoEResponseHeader).result = s)
    ∧ (∀ s : Int, (AmsResponse.ofStatus s : AmsResponse AoEReadResponseHeader).result = s)
    ∧ (∀ h : AoEResponseHeader, (AmsResponse.ofHeader h).result = (h.result : Int))
    ∧ (∀ h : AoEReadResponseHeader, (AmsResponse.ofHeader h).result = (h.result : Int))
    ∧ (∀ r : AmsResponse AoEResponseHeader,
        r.result = 0 ↔ r.status = 0 ∧ r.response.result = 0)
    ∧ (∀ r : AmsResponse AoEReadResponseHeader,
        r.result = 0 ↔ r.status = 0 ∧ r.response.result = 0)
    ∧ (∀ r : AmsResponse AoEResponseHeader, r.status ≠ 0 → r.result = r.status)
    ∧ (∀ r : AmsResponse AoEReadResponseHeader, r.status ≠ 0 → r.result = r.status) := by
  refine ⟨?_, ?_, ?_, ?_, ?_, ?_, ?_, ?_⟩
  · intro s
    by_cases hs : s = 0
    · subst hs; rfl
    · simp [AmsResponse.result, AmsResponse.ofStatus, hs]
  · intro s
    by_cases hs : s = 0
    · subst hs; rfl
    · simp [AmsResponse.result, AmsResponse.ofStatus, hs]
  · intro h; rfl
  · intro h; rfl
  · intro r; exact AmsResponse.result_eq_zero_iff r
  · intro r; exact AmsResponse.result_eq_zero_iff r
  · intro r hs
    simp [AmsResponse.result, hs]
  · intro r hs
    simp [AmsResponse.result, hs]

/-- Witness for C8: local status -7 next to the ADS result code 1804. -/
theorem amsResponse_result_witness :
    (-7 : Int) ≠ 0
    ∧ (AmsResponse.mk (-7) (AoEResponseHeader.mk 1804)).result = -7 :=
  ⟨by decide, amsResponse_result.2.2.2.2.2.2.1 ⟨-7, ⟨1804⟩⟩ (by decide)⟩

/-- C9: with `PORT_BASE = 30000` and `NUM_PORTS_MAX = 8`, for every index
`i < NUM_PORTS_MAX` the 16-bit value `PORT_BASE + i` does not wrap, lies in
`[30000, 30008)` and is not 0; `OpenPort` returns 0 exactly when all ports are
taken, and any other value it returns lies in the port range. -/
theorem localPort_range (i : Nat) (hi : i < AmsRouter.NUM_PORTS_MAX) :
    AmsRouter.PORT_BASE = 30000
    ∧ AmsRouter.NUM_PORTS_MAX = 8
    ∧ AmsRouter.portLimitInRange = true
    ∧ AmsRouter.portOfIndex i = AmsRouter.PORT_BASE + i
    ∧ 30000 ≤ AmsRouter.portOfIndex i
    ∧ AmsRouter.portOfIndex i < 30008
    ∧ AmsRouter.portOfIndex i ≠ 0
    ∧ (∀ ports : Nat → Bool,
        ((AmsRouter.OpenPort ports).2 = 0 ↔ ∀ j, j < AmsRouter.NUM_PORTS_MAX → ports j = true)
        ∧ ((AmsRouter.OpenPort ports).2 = 0
            ∨ (30000 ≤ (AmsRouter.OpenPort ports).2 ∧ (AmsRouter.OpenPort ports).2 < 30008))) := by
  have hi8 : i < 8 := hi
  have hport : ∀ k, k < 8 → AmsRouter.portOfIndex k = 30000 + k := by
    intro k hk
    simp only [AmsRouter.portOfIndex, AmsRouter.PORT_BASE]
    omega
  refine ⟨rfl, rfl, by decide, ?_, ?_, ?_, ?_, ?_⟩
  · simpa [AmsRouter.PORT_BASE] using hport i hi8
  · rw [hport i hi8]; omega
  · rw [hport i hi8]; omega
  · rw [hport i hi8]; omega
  · intro ports
    cases hfind : (List.range AmsRouter.NUM_PORTS_MAX).find? (fun i => !ports i) with
    | none =>
      have hall := (AmsRouter.find_free_eq_none ports).1 hfind
      have h0 : (AmsRouter.OpenPort ports).2 = 0 := by
        simp only [AmsRouter.OpenPort, hfind]
      exact ⟨⟨fun _ => hall, fun _ => h0⟩, Or.inl h0⟩
    | some k =>
      have hk : k < 8 := by
        have hm := List.mem_of_find?_eq_some hfind
        simpa [AmsRouter.NUM_PORTS_MAX] using hm
      have hfree : ports k = false := by
        have hp := List.find?_some hfind
        simpa using hp
      have hp : (AmsRouter.OpenPort ports).2 = 30000 + k := by
        simp only [AmsRouter.OpenPort, hfind, hport k hk]
      rw [hp]
      refine ⟨⟨fun h0 => by omega, fun hall => ?_⟩, Or.inr ⟨by omega, by omega⟩⟩
      have := hall k hk
      rw [hfree] at this
      exact absurd this (by decide)

/-- Witness for C9: the last index, 7, gives port 30007. -/
theorem localPort_range_witness :
    7 < AmsRouter.NUM_PORTS_MAX
    ∧ AmsRouter.portOfIndex 7 = AmsRouter.PORT_BASE + 7
    ∧ AmsRouter.portOfIndex 7 ≠ 0 :=
  ⟨by decide, (localPort_range 7 (by decide)).2.2.2.1, (localPort_range 7 (by decide)).2.2.2.2.2.2.1⟩

/-- C10, evaluated at the failing input: with an empty `errorMessage` (the
`--help` case) `usage` writes nothing to `std::cout`, nothing to `std::cerr`
and exits with status 0, whatever the usage text is; with the message
`"x"` it writes the message and the usage text to `std::cerr` and exits with
status 1. -/
theorem usage_help_writes_nothing (usageText : String) :
    usage usageText "" = { cout := "", cerr := "", status := 0 }
    ∧ usage usageText "x" = { cout := "", cerr := "x" ++ usageText, status := 1 } := by
  have hx : ("x" : String).isEmpty = false := by decide
  have hcat : ("" ++ "x" : String) = "x" := by decide
  constructor
  · rfl
  · simp only [usage, hx, hcat]
    simp

/-- C11: in `ParseCommand` a value is assigned to `Logger::logLevel` if and
only if the value of `--localams` is non-empty; whether `--log-level` is on
the command line does not change whether the assignment is made: with
`--log-level` and without `--localams` the log level stays what it was, and
with `--localams` and without `--log-level` it is overwritten. -/
theorem logLevel_gating (StringTo : Nat → String → Nat) (global : GlobalOptions) :
    ((ParseCommand.logLevelAssignment StringTo global).isSome = true
      ↔ (GlobalOptions.value global.localams).isEmpty = false)
    ∧ (∀ level : Option String,
        (ParseCommand.logLevelAssignment StringTo { global with logLevel := level }).isSome
          = (ParseCommand.logLevelAssignment StringTo global).isSome)
    ∧ (∀ (gw : Option String) (level : Option String) (old : Nat),
        ParseCommand.logLevelAfter StringTo ⟨gw, none, level⟩ old = old)
    ∧ (∀ gw : Option String,
        ParseCommand.logLevelAssignment StringTo ⟨gw, some "5.24.37.144.1.1", none⟩
          = some (max (StringTo sizeofU64 "") 4)) := by
  refine ⟨?_, ?_, ?_, ?_⟩
  · cases h : (GlobalOptions.value global.localams).isEmpty
    · simp [ParseCommand.logLevelAssignment_of_localams StringTo global h]
    · simp [ParseCommand.logLevelAssignment_of_no_localams StringTo global h]
  · intro level
    cases h : (GlobalOptions.value global.localams).isEmpty
    · rw [ParseCommand.logLevelAssignment_of_localams StringTo
          { global with logLevel := level } h,
        ParseCommand.logLevelAssignment_of_localams StringTo global h]
      rfl
    · rw [ParseCommand.logLevelAssignment_of_no_localams StringTo
          { global with logLevel := level } h,
        ParseCommand.logLevelAssignment_of_no_localams StringTo global h]
  · intro gw level old
    rfl
  · intro gw
    have h : ("5.24.37.144.1.1" : String).isEmpty = false := by decide
    exact ParseCommand.logLevelAssignment_of_localams StringTo _ h

/-- C12, evaluated at the failing input: with `--localams=5.24.37.144.1.1` the
requested verbosity 1 makes `ParseCommand` assign 4, the requested verbosity 7
makes it assign 7, and in general the assigned value is the larger one of the
requested verbosity and 4. -/
theorem logLevel_not_clamped :
    ParseCommand.logLevelAssignment sampleStringTo
        ⟨none, some "5.24.37.144.1.1", some "1"⟩ = some 4
    ∧ ParseCommand.logLevelAssignment sampleStringTo
        ⟨none, some "5.24.37.144.1.1", some "7"⟩ = some 7
    ∧ (∀ (StringTo : Nat → String → Nat) (gw level : Option String),
        ParseCommand.logLevelAssignment StringTo ⟨gw, some "5.24.37.144.1.1", level⟩
          = some (max (StringTo sizeofU64 (GlobalOptions.value level)) 4)) := by
  refine ⟨by decide, by decide, ?_⟩
  intro StringTo gw level
  have h : ("5.24.37.144.1.1" : String).isEmpty = false := by decide
  exact ParseCommand.logLevelAssignment_of_localams StringTo _ h

/-- C13: in `RunVar`, once the device and the handle are there, a write with
`--type=LWORD` (size 8 in the type map) converts the value with
`StringTo<uint32_t>` and hands `WriteReqEx` a length of 4 and the four bytes of
that value; with `BOOL`, `BYTE`, `WORD` and `DWORD` the length handed over is
the size of the type in the map: 1, 1, 2 and 4. -/
theorem runVar_write_length (env : Env) (netid : AmsNetId) (port : Nat)
    (gw name value : String) (device : AdsDevice) (handle : Nat)
    (hconn : env.connect gw netid (plcPort env port) = .ok device)
    (hhandle : device.GetHandle name = .ok handle) :
    RunVar.typeMap.lookup "LWORD" = some 8
    ∧ (RunVar env netid port gw "LWORD" name (some value)).calls
        = [.WriteReqEx env.ADSIGRP_SYM_VALBYHND handle 4
            (objectBytes env.host 4 (env.StringTo 4 value))]
    ∧ (objectBytes env.host 4 (env.StringTo 4 value)).length = 4
    ∧ RunVar.typeMap.lookup "BOOL" = some 1
    ∧ (RunVar env netid port gw "BOOL" name (some value)).calls
        = [.WriteReqEx env.ADSIGRP_SYM_VALBYHND handle 1
            (objectBytes env.host 1 (env.StringTo 1 value))]
    ∧ RunVar.typeMap.lookup "BYTE" = some 1
    ∧ (RunVar env netid port gw "BYTE" name (some value)).calls
        = [.WriteReqEx env.ADSIGRP_SYM_VALBYHND handle 1
            (objectBytes env.host 1 (env.StringTo 1 value))]
    ∧ RunVar.typeMap.lookup "WORD" = some 2
    ∧ (RunVar env netid port gw "WORD" name (some value)).calls
        = [.WriteReqEx env.ADSIGRP_SYM_VALBYHND handle 2
            (objectBytes env.host 2 (env.StringTo 2 value))]
    ∧ RunVar.typeMap.lookup "DWORD" = some 4
    ∧ (RunVar env netid port gw "DWORD" name (some value)).calls
        = [.WriteReqEx env.ADSIGRP_SYM_VALBYHND handle 4
            (objectBytes env.host 4 (env.StringTo 4 value))] := by
  have hL : RunVar.typeMap.lookup "LWORD" = some 8 := by decide
  have hB : RunVar.typeMap.lookup "BOOL" = some 1 := by decide
  have hY : RunVar.typeMap.lookup "BYTE" = some 1 := by decide
  have hW : RunVar.typeMap.lookup "WORD" = some 2 := by decide
  have hD : RunVar.typeMap.lookup "DWORD" = some 4 := by decide
  refine ⟨hL, ?_, objectBytes_length _ _ _, hB, ?_, hY, ?_, hW, ?_, hD, ?_⟩
  · rw [RunVar.write_run env netid port gw "LWORD" name value 8 device handle hL hconn hhandle]
    rfl
  · rw [RunVar.write_run env netid port gw "BOOL" name value 1 device handle hB hconn hhandle]
    rfl
  · rw [RunVar.write_run env netid port gw "BYTE" name value 1 device handle hY hconn hhandle]
    rfl
  · rw [RunVar.write_run env netid port gw "WORD" name value 2 device handle hW hconn hhandle]
    rfl
  · rw [RunVar.write_run env netid port gw "DWORD" name value 4 device handle hD hconn hhandle]
    rfl

/-- Witness for C13: the sample device and the value `100` written to
`MAIN.nNum1`. -/
theorem runVar_write_length_witness :
    sampleEnv.connect "" sampleNetId (plcPort sampleEnv 0) = .ok sampleDevice
    ∧ sampleDevice.GetHandle "MAIN.nNum1" = .ok 0x1234
    ∧ (RunVar sampleEnv sampleNetId 0 "" "LWORD" "MAIN.nNum1" (some "100")).calls
        = [.WriteReqEx sampleEnv.ADSIGRP_SYM_VALBYHND 0x1234 4
            (objectBytes sampleEnv.host 4 (sampleEnv.StringTo 4 "100"))] :=
  ⟨rfl, rfl,
    (runVar_write_length sampleEnv sampleNetId 0 "" "MAIN.nNum1" "100" sampleDevice 0x1234
      rfl rfl).2.1⟩

/-- C14: with `r` the `--read` length and `w` the number of bytes taken from
standard input, `RunRaw`, once the device is there, issues exactly one
request: `ReadReqEx2` of `r` bytes when `w = 0` and `r > 0`, `WriteReqEx` of the
`w` bytes when `r = 0` and `w > 0`, `ReadWriteReqEx2` with read length `r` and
write length `w` when both are positive; when `r = 0` and `w = 0` it returns -1
without constructing a device or issuing a request. -/
theorem runRaw_request_selection (env : Env) (netid : AmsNetId) (port : Nat) (gw : String)
    (group offset r : Nat) (stdin : Option (List Byte)) (device : AdsDevice)
    (hconn : env.connect gw netid (plcPort env port) = .ok device) :
    (0 < r → (RunRaw.readStdin stdin).length = 0 →
      (RunRaw env netid port gw group offset r stdin).calls = [.ReadReqEx2 group offset r])
    ∧ (r = 0 → 0 < (RunRaw.readStdin stdin).length →
      (RunRaw env netid port gw group offset r stdin).calls
        = [.WriteReqEx group offset (RunRaw.readStdin stdin).length (RunRaw.readStdin stdin)])
    ∧ (0 < r → 0 < (RunRaw.readStdin stdin).length →
      (RunRaw env netid port gw group offset r stdin).calls
        = [.ReadWriteReqEx2 group offset r (RunRaw.readStdin stdin).length
            (RunRaw.readStdin stdin)])
    ∧ (r = 0 → (RunRaw.readStdin stdin).length = 0 →
      RunRaw env netid port gw group offset r stdin
        = { deviceCreated := false, calls := [], cout := [], outcome := .returned (-1) }) := by
  refine ⟨?_, ?_, ?_, ?_⟩
  · intro hr hw
    rw [(RunRaw.calls_of_connect env netid port gw group offset r stdin device hconn
      (by omega)).1]
    simp [hw]
  · intro hr hw
    rw [(RunRaw.calls_of_connect env netid port gw group offset r stdin device hconn
      (by omega)).1]
    have hw2 : ¬ (RunRaw.readStdin stdin).length = 0 := by omega
    simp [hw2, hr]
  · intro hr hw
    rw [(RunRaw.calls_of_connect env netid port gw group offset r stdin device hconn
      (by omega)).1]
    have hw2 : ¬ (RunRaw.readStdin stdin).length = 0 := by omega
    have hr2 : ¬ r = 0 := by omega
    simp [hw2, hr2]
  · intro hr hw
    simp [RunRaw, hr, hw]

/-- Witness for C14: `--read=4` with the two bytes `01 02` on standard input
gives one read-write request. -/
theorem runRaw_request_selection_witness :
    sampleEnv.connect "" sampleNetId (plcPort sampleEnv 0) = .ok sampleDevice
    ∧ (RunRaw sampleEnv sampleNetId 0 "" 0xF003 0 4 (some [1, 2])).calls
        = [.ReadWriteReqEx2 0xF003 0 4 2 [1, 2]] :=
  ⟨rfl,
    (runRaw_request_selection sampleEnv sampleNetId 0 "" 0xF003 0 4 (some [1, 2]) sampleDevice
      rfl).2.2.1 (by decide) (by decide)⟩

/-- C15, evaluated at the failing input: a successful read with `--type=STRING`
that returns the four bytes `61 62 63 00` issues one read of 255 bytes and
writes the decimal line `6513249` to `std::cout`, not the four raw bytes. -/
theorem runVar_string_read_prints_number :
    (RunVar sampleEnv sampleNetId 0 "" "STRING" "MAIN.sString1" none).calls
      = [.ReadReqEx2 0xF005 0x1234 255]
    ∧ (RunVar sampleEnv sampleNetId 0 "" "STRING" "MAIN.sString1" none).outcome = .returned 0
    ∧ (RunVar sampleEnv sampleNetId 0 "" "STRING" "MAIN.sString1" none).cout
      = asciiBytes "6513249\n"
    ∧ (RunVar sampleEnv sampleNetId 0 "" "STRING" "MAIN.sString1" none).cout
      ≠ [0x61, 0x62, 0x63, 0] := by
  decide

/-- C16, the claim as stated fails: when an `AdsException` with the error code
`2 ^ 31` escapes `ParseCommand`, the `long` error code is narrowed to the `int`
that `main` returns, and `main` returns `-2 ^ 31`, not the error code. -/
theorem main_exit_status_counterexample :
    main (.threw (.adsException (2 ^ 31))) = .returned (-2 ^ 31)
    ∧ main (.threw (.adsException (2 ^ 31))) ≠ .returned (2 ^ 31) := by
  decide

/-- C16, amended: `main` returns what `ParseCommand` returns; when an
`AdsException` escapes whose error code `c` lies in the range of `int`
(`-2 ^ 31 ≤ c < 2 ^ 31`, such as 1804) it returns `c`; for another
`std::exception` it returns -2, for any other thrown object -1; no exception
leaves `main`. -/
theorem main_exit_status (c : Int) (hlo : -2 ^ 31 ≤ c) (hhi : c < 2 ^ 31) :
    (∀ v : Int, main (.returned v) = .returned v)
    ∧ main (.threw (.adsException c)) = .returned c
    ∧ main (.threw (.adsException 1804)) = .returned 1804
    ∧ main (.threw .stdException) = .returned (-2)
    ∧ main (.threw .other) = .returned (-1)
    ∧ (∀ (o : Outcome) (t : Thrown), main o ≠ .threw t) := by
  refine ⟨fun _ => rfl, ?_, by decide, rfl, rfl, ?_⟩
  · simp only [main, intOfLong_of_range c hlo hhi]
  · intro o t
    cases o with
    | returned v => simp [main]
    | threw x => cases x <;> simp [main]
    | exited status => simp [main]

/-- Witness for C16: the error code 1804 of the usage text. -/
theorem main_exit_status_witness :
    (-2 ^ 31 : Int) ≤ 1804 ∧ (1804 : Int) < 2 ^ 31
    ∧ main (.threw (.adsException 1804)) = .returned 1804 :=
  ⟨by decide, by decide, (main_exit_status 1804 (by decide) (by decide)).2.1⟩

end Ads
